import Mathlib

/-!
Verification of the Secuval request-security library against its
natural-language specification.

The Rust source is shallowly embedded: strings are lists of characters,
the regex crate's compiled patterns become terms of a small regular
expression language matched by Brzozowski derivatives, f64 token-bucket
arithmetic becomes exact rational arithmetic, the concurrent DashMap of
buckets becomes an association list threaded through explicit state
passing, and wall-clock instants become rational timestamps supplied by
the caller.  Character classes of the regex crate that are Unicode aware
in Rust are modelled by their ASCII meaning, and str::to_lowercase is
modelled as the per-character ASCII lowercase map; both agree with Rust
on ASCII text, which is all the patterns and claims mention.
-/

namespace Secuval

/-! ### Characters used by the source that are awkward as literals -/

/-- Character 0x00, the null byte stripped by sanitize. -/
def nullChar : Char := Char.ofNat 0

/-- Character 0x22, the double quote escaped by sanitize. -/
def quoteChar : Char := Char.ofNat 34

/-- Character 0x27, the single quote escaped by sanitize and used in the
SQL-injection patterns. -/
def apostChar : Char := Char.ofNat 39

/-- Character 0x60, the backquote used by the command-injection patterns. -/
def backqChar : Char := Char.ofNat 96

/-- Character 0x0a, the newline, which the regex dot does not match. -/
def newlineChar : Char := Char.ofNat 10

/-! ### A small regular-expression language

Embeds the regex-crate patterns compiled in validation.rs.  Matching is
by Brzozowski derivatives; the is_match entry point of the regex crate
is the unanchored search isMatch below. -/

/-- Syntax of the regular expressions appearing in validation.rs:
empty language, empty string, a character class given by a boolean
predicate, alternation, concatenation and Kleene star. -/
inductive Rx where
  | emp : Rx
  | eps : Rx
  | cls (p : Char → Bool) : Rx
  | alt (a b : Rx) : Rx
  | seq (a b : Rx) : Rx
  | star (a : Rx) : Rx

/-- Whether the regular expression accepts the empty string. -/
def nullable : Rx → Bool
  | .emp => false
  | .eps => true
  | .cls _ => false
  | .alt a b => nullable a || nullable b
  | .seq a b => nullable a && nullable b
  | .star _ => true

/-- Brzozowski derivative with respect to one character. -/
def deriv : Rx → Char → Rx
  | .emp, _ => .emp
  | .eps, _ => .emp
  | .cls p, x => if p x then .eps else .emp
  | .alt a b, x => .alt (deriv a x) (deriv b x)
  | .seq a b, x =>
      if nullable a then .alt (.seq (deriv a x) b) (deriv b x)
      else .seq (deriv a x) b
  | .star a, x => .seq (deriv a x) (.star a)

/-- Does some prefix of the word match the expression? -/
def matchesPref (r : Rx) : List Char → Bool
  | [] => nullable r
  | c :: cs => nullable r || matchesPref (deriv r c) cs

/-- Does the whole word match the expression? -/
def accepts (r : Rx) : List Char → Bool
  | [] => nullable r
  | c :: cs => accepts (deriv r c) cs

/-- Unanchored search: does any substring match?  This is the regex
crate's is_match. -/
def isMatch (r : Rx) : List Char → Bool
  | [] => nullable r
  | c :: cs => matchesPref r (c :: cs) || isMatch r cs

/-- ASCII word character, the meaning of the regex class backslash-w on
ASCII text. -/
def isWordChar (c : Char) : Bool :=
  (c ≥ 'a' && c ≤ 'z') || (c ≥ 'A' && c ≤ 'Z') || (c ≥ '0' && c ≤ '9') || c = '_'

/-- ASCII whitespace, the meaning of the regex class backslash-s on
ASCII text (space, tab, newline, carriage return, vertical tab, form
feed). -/
def isSpaceChar (c : Char) : Bool :=
  c = ' ' || c = Char.ofNat 9 || c = newlineChar || c = Char.ofNat 13 ||
    c = Char.ofNat 11 || c = Char.ofNat 12

/-- A word boundary holds before a word character when the preceding
character (none at the start of the text) is not a word character. -/
def boundaryOK : Option Char → Bool
  | none => true
  | some c => !isWordChar c

/-- Unanchored search for a pattern that begins with a word boundary
followed by a word character: a match may start only at a position whose
preceding character fails isWordChar. -/
def isMatchWB (r : Rx) (prev : Option Char) : List Char → Bool
  | [] => boundaryOK prev && nullable r
  | c :: cs => (boundaryOK prev && matchesPref r (c :: cs)) || isMatchWB r (some c) cs

/-- A compiled pattern of validation.rs: either an ordinary expression or
one whose source begins with a word boundary before a word character. -/
inductive Pat where
  | plain (r : Rx) : Pat
  | wordStart (r : Rx) : Pat

/-- The is_match entry point on a compiled pattern. -/
def Pat.search : Pat → List Char → Bool
  | .plain r, s => isMatch r s
  | .wordStart r, s => isMatchWB r none s

/-! ### Smart constructors mirroring the regex syntax used in the source -/

/-- Literal character. -/
def chr (c : Char) : Rx := .cls (fun x => x = c)

/-- Case-insensitive literal character, for patterns under the regex
flag (?i). -/
def ichr (c : Char) : Rx := .cls (fun x => x.toLower = c.toLower)

/-- Concatenation of a list of expressions. -/
def seqs (l : List Rx) : Rx := l.foldr .seq .eps

/-- Case-sensitive literal word. -/
def lit (s : List Char) : Rx := seqs (s.map chr)

/-- Case-insensitive literal word, for patterns under (?i). -/
def ilit (s : List Char) : Rx := seqs (s.map ichr)

/-- Alternation of a list of expressions. -/
def altN (l : List Rx) : Rx := l.foldr .alt .emp

/-- One or more repetitions, the regex plus. -/
def plusR (r : Rx) : Rx := .seq r (.star r)

/-- Zero or one repetition, the regex question mark. -/
def optR (r : Rx) : Rx := .alt .eps r

/-- Two or more repetitions, the regex bound 2-to-many. -/
def rep2 (r : Rx) : Rx := seqs [r, r, .star r]

/-- The regex dot: any character except newline. -/
def dotR : Rx := .cls (fun c => c ≠ newlineChar)

/-- The regex class backslash-s. -/
def wsp : Rx := .cls isSpaceChar

/-- The regex class backslash-d on ASCII text. -/
def digitR : Rx := .cls (fun c => c ≥ '0' && c ≤ '9')

/-- The regex class backslash-w on ASCII text. -/
def wordR : Rx := .cls isWordChar

/-! ### The compiled patterns of validation.rs

Each definition carries the regex source string it embeds, written as in
the Rust file (with the word quote standing for the 0x27 character). -/

/-- Regex (?i) backslash-b union .+ select, from build_sql_patterns. -/
def sqlUnionSelect : Pat :=
  .wordStart (seqs [ilit "union".toList, plusR dotR, ilit "select".toList])

/-- Regex (?i) drop backslash-s+ (table|database). -/
def sqlDropTable : Pat :=
  .plain (seqs [ilit "drop".toList, plusR wsp,
    .alt (ilit "table".toList) (ilit "database".toList)])

/-- Regex (?i) quote backslash-s* or backslash-s+ quote? d+ quote?
backslash-s* = backslash-s* quote? d+, the quote OR 1 = 1 pattern. -/
def sqlOrDigitsRx : Rx :=
  seqs [chr apostChar, .star wsp, ilit "or".toList, plusR wsp,
    optR (chr apostChar), plusR digitR, optR (chr apostChar), .star wsp,
    chr '=', .star wsp, optR (chr apostChar), plusR digitR]

/-- The quote OR 1 = 1 pattern as a compiled pattern. -/
def sqlOrDigits : Pat := .plain sqlOrDigitsRx

/-- Regex (?i) quote backslash-s* or backslash-s+ quote? w+ quote
backslash-s* = backslash-s* quote? w+, the quote OR a = a pattern. -/
def sqlOrWords : Pat :=
  .plain (seqs [chr apostChar, .star wsp, ilit "or".toList, plusR wsp,
    optR (chr apostChar), plusR wordR, chr apostChar, .star wsp,
    chr '=', .star wsp, optR (chr apostChar), plusR wordR])

/-- Regex (?i) ;? backslash-s* --, SQL comment. -/
def sqlDashComment : Pat :=
  .plain (seqs [optR (chr ';'), .star wsp, lit "--".toList])

/-- Regex (?i) ;? backslash-s* #, MySQL comment. -/
def sqlHashComment : Pat :=
  .plain (seqs [optR (chr ';'), .star wsp, chr '#'])

/-- Regex (?i) /**/ comment. -/
def sqlStarComment : Pat := .plain (lit "/**/".toList)

/-- Regex (?i) quote backslash-s* ; backslash-s* drop. -/
def sqlQuoteDrop : Pat :=
  .plain (seqs [chr apostChar, .star wsp, chr ';', .star wsp, ilit "drop".toList])

/-- Regex (?i) quote backslash-s* ; backslash-s* select. -/
def sqlQuoteSelect : Pat :=
  .plain (seqs [chr apostChar, .star wsp, chr ';', .star wsp, ilit "select".toList])

/-- Regex (?i) exec backslash-s* open-paren. -/
def sqlExec : Pat := .plain (seqs [ilit "exec".toList, .star wsp, chr '('])

/-- Regex (?i) execute backslash-s* open-paren. -/
def sqlExecute : Pat := .plain (seqs [ilit "execute".toList, .star wsp, chr '('])

/-- The sixteen SQL-injection patterns of build_sql_patterns, in source
order; the last five are the case-insensitive literals xp_cmdshell,
sp_executesql, information_schema, sysobjects and syscolumns. -/
def sql_patterns : List Pat :=
  [sqlUnionSelect, sqlDropTable, sqlOrDigits, sqlOrWords, sqlDashComment,
   sqlHashComment, sqlStarComment, sqlQuoteDrop, sqlQuoteSelect, sqlExec,
   sqlExecute, .plain (ilit "xp_cmdshell".toList),
   .plain (ilit "sp_executesql".toList),
   .plain (ilit "information_schema".toList),
   .plain (ilit "sysobjects".toList), .plain (ilit "syscolumns".toList)]

/-- Regex (?i) on(click|error|load|mouseover|mouseout|keydown|keyup|
keypress|submit|change|focus|blur) backslash-s* =, event handlers. -/
def xssEventHandler : Pat :=
  .plain (seqs [ilit "on".toList,
    altN (["click", "error", "load", "mouseover", "mouseout", "keydown",
      "keyup", "keypress", "submit", "change", "focus", "blur"].map
        (fun s => ilit s.toList)),
    .star wsp, chr '='])

/-- Regex (?i) < (object|embed). -/
def xssObjectEmbed : Pat :=
  .plain (.seq (ichr '<') (.alt (ilit "object".toList) (ilit "embed".toList)))

/-- Regex (?i) <meta .* url=javascript. -/
def xssMetaRefresh : Pat :=
  .plain (seqs [ilit "<meta".toList, .star dotR, ilit "url=javascript".toList])

/-- Regex (?i) expression backslash-s* open-paren. -/
def xssExpression : Pat :=
  .plain (seqs [ilit "expression".toList, .star wsp, chr '('])

/-- Regex (?i) javascript: backslash-s* expression. -/
def xssJsExpression : Pat :=
  .plain (seqs [ilit "javascript:".toList, .star wsp, ilit "expression".toList])

/-- Regex (?i) <img [^>]* backslash-b onerror backslash-s* =.  The word
boundary sits between the class [^>]* and the word character o; the
character before it is either g (from img, a word character, so the
boundary fails) or the last character of the class, so the pattern is
equivalent to: <img, then [^>]*, then one [^>] that is not a word
character, then onerror backslash-s* =. -/
def xssImgOnerror : Pat :=
  .plain (seqs [ilit "<img".toList, .star (.cls (fun c => c ≠ '>')),
    .cls (fun c => c ≠ '>' && !isWordChar c), ilit "onerror".toList,
    .star wsp, chr '='])

/-- Regex (?i) <link [^>]* backslash-s href backslash-s* = backslash-s*
javascript: . -/
def xssLinkHref : Pat :=
  .plain (seqs [ilit "<link".toList, .star (.cls (fun c => c ≠ '>')), wsp,
    ilit "href".toList, .star wsp, chr '=', .star wsp,
    ilit "javascript:".toList])

/-- Regex (?i) <script, the script-tag pattern. -/
def xssScriptRx : Rx := ilit "<script".toList

/-- The twelve XSS patterns of build_xss_patterns, in source order; the
simple ones are the case-insensitive literals <script, javascript:,
vbscript:, data:text/html and <iframe. -/
def xss_patterns : List Pat :=
  [.plain xssScriptRx, xssEventHandler,
   .plain (ilit "javascript:".toList), .plain (ilit "vbscript:".toList),
   .plain (ilit "data:text/html".toList), .plain (ilit "<iframe".toList),
   xssObjectEmbed, xssMetaRefresh, xssExpression, xssJsExpression,
   xssImgOnerror, xssLinkHref]

/-- Alternation of the shell directories /bin, /usr and /sbin. -/
def cmdBinDirs : Rx :=
  altN (["/bin", "/usr", "/sbin"].map (fun s => lit s.toList))

/-- Alternation of the command names rm, ls, cat, echo, wget, curl, nc,
netcat, nmap and ping. -/
def cmdNames : Rx :=
  altN (["rm", "ls", "cat", "echo", "wget", "curl", "nc", "netcat",
    "nmap", "ping"].map (fun s => lit s.toList))

/-- Regex backquote [^ backquote ]* backquote, command substitution. -/
def cmdBackquote : Pat :=
  .plain (seqs [chr backqChar, .star (.cls (fun c => c ≠ backqChar)),
    chr backqChar])

/-- Regex dollar open-paren [^)]* close-paren, command substitution. -/
def cmdDollarParen : Pat :=
  .plain (seqs [chr '$', chr '(', .star (.cls (fun c => c ≠ ')')), chr ')'])

/-- Regex [<>] backslash-s* (/etc|/proc|/home|/root|/var), redirection. -/
def cmdRedirect : Pat :=
  .plain (seqs [.cls (fun c => c = '<' || c = '>'), .star wsp,
    altN (["/etc", "/proc", "/home", "/root", "/var"].map
      (fun s => lit s.toList))])

/-- The fifteen command-injection patterns of build_command_patterns, in
source order: semicolon, pipe and logical-operator prefixes before shell
directories or command names, command substitution, redirection, four
semicolon-command forms each ending in one whitespace character, and the
null-byte literals %00 and backslash x00. -/
def command_patterns : List Pat :=
  [.plain (seqs [chr ';', .star wsp, cmdBinDirs]),
   .plain (seqs [chr ';', .star wsp, cmdNames]),
   .plain (seqs [chr '|', .star wsp, cmdBinDirs]),
   .plain (seqs [chr '|', .star wsp, cmdNames]),
   .plain (seqs [.alt (lit "&&".toList) (lit "||".toList), .star wsp, cmdBinDirs]),
   .plain (seqs [.alt (lit "&&".toList) (lit "||".toList), .star wsp, cmdNames]),
   cmdBackquote, cmdDollarParen, cmdRedirect,
   .plain (seqs [chr ';', .star wsp, lit "rm".toList, wsp]),
   .plain (seqs [chr ';', .star wsp, lit "cat".toList, wsp]),
   .plain (seqs [chr ';', .star wsp, lit "wget".toList, wsp]),
   .plain (seqs [chr ';', .star wsp, lit "curl".toList, wsp]),
   .plain (lit "%00".toList), .plain (lit "\\x00".toList)]

/-- A slash or backslash, the regex class [/ backslash]. -/
def slashOrBack : Rx := .cls (fun c => c = '/' || c = '\\')

/-- The seventeen path-traversal patterns of build_path_traversal_patterns,
in source order: two-or-more repetitions of dot-dot-separator in three
separator variants, URL-encoded and double-encoded dot-dot forms, the
absolute-path literals, and two encoded absolute-path literals. -/
def path_traversal_patterns : List Pat :=
  [.plain (rep2 (lit "../".toList)),
   .plain (rep2 (lit "..\\".toList)),
   .plain (rep2 (.seq (lit "..".toList) slashOrBack)),
   .plain (.seq (lit "%2e%2e".toList) slashOrBack),
   .plain (lit "%2e%2e%2f".toList),
   .plain (lit "%2e%2e%5c".toList),
   .plain (lit "%252e%252e".toList),
   .plain (lit "/etc/".toList), .plain (lit "/proc/".toList),
   .plain (lit "/home/".toList), .plain (lit "/root/".toList),
   .plain (lit "/var/".toList), .plain (lit "\\windows\\".toList),
   .plain (lit "\\system32\\".toList), .plain (lit "c:\\".toList),
   .plain (lit "%2fetc%2f".toList), .plain (lit "%5cwindows%5c".toList)]

/-! ### The InputValidator string checks of validation.rs -/

/-- Model of str::to_lowercase, accurate on ASCII text. -/
def toLowerStr (s : List Char) : List Char := s.map Char.toLower

/-- InputValidator::contains_sql_injection: lower-case the input and try
every SQL pattern. -/
def contains_sql_injection (input : List Char) : Bool :=
  sql_patterns.any (fun p => p.search (toLowerStr input))

/-- InputValidator::contains_xss: lower-case the input and try every XSS
pattern. -/
def contains_xss (input : List Char) : Bool :=
  xss_patterns.any (fun p => p.search (toLowerStr input))

/-- InputValidator::contains_command_injection, on the raw input. -/
def contains_command_injection (input : List Char) : Bool :=
  command_patterns.any (fun p => p.search input)

/-- InputValidator::contains_path_traversal, on the raw input. -/
def contains_path_traversal (input : List Char) : Bool :=
  path_traversal_patterns.any (fun p => p.search input)

/-! ### Configuration, from config.rs

Durations are modelled as rational numbers of seconds (Duration is
non-negative by construction in Rust, which theorems take as a
hypothesis where it matters), u32 and usize fields as naturals. -/

/-- RateLimitConfig of config.rs. -/
structure RateLimitConfig where
  enabled : Bool
  requests_per_window : Nat
  window_duration : ℚ
  burst_size : Nat
  per_ip : Bool
  per_user : Bool
  adaptive : Bool
deriving DecidableEq

/-- Default for RateLimitConfig: 100000 requests per 60-second window,
burst 10000, everything on. -/
def RateLimitConfig.default : RateLimitConfig :=
  { enabled := true, requests_per_window := 100000, window_duration := 60,
    burst_size := 10000, per_ip := true, per_user := true, adaptive := true }

/-- ValidationConfig of config.rs. -/
structure ValidationConfig where
  enabled : Bool
  sql_injection_check : Bool
  xss_check : Bool
  command_injection_check : Bool
  path_traversal_check : Bool
  sanitize_input : Bool
  max_payload_size : Nat
  max_header_size : Nat
deriving DecidableEq

/-- Default for ValidationConfig: all checks on, 10 MiB payload cap,
8 KiB header cap. -/
def ValidationConfig.default : ValidationConfig :=
  { enabled := true, sql_injection_check := true, xss_check := true,
    command_injection_check := true, path_traversal_check := true,
    sanitize_input := true, max_payload_size := 10 * 1024 * 1024,
    max_header_size := 8 * 1024 }

/-- AuthConfig of config.rs. -/
structure AuthConfig where
  enabled : Bool
  require_auth : Bool
  jwt_secret : Option String
  api_keys : List String
  token_expiry : Nat
  refresh_enabled : Bool
  mfa_enabled : Bool
deriving DecidableEq

/-- Default for AuthConfig: enabled, permissive, no secret, no keys,
one-hour expiry. -/
def AuthConfig.default : AuthConfig :=
  { enabled := true, require_auth := false, jwt_secret := none,
    api_keys := [], token_expiry := 3600, refresh_enabled := false,
    mfa_enabled := false }

/-- MonitoringConfig of config.rs. -/
structure MonitoringConfig where
  enabled : Bool
  log_requests : Bool
  log_responses : Bool
  log_security_events : Bool
  metrics_enabled : Bool
  trace_sampling_rate : ℚ
deriving DecidableEq

/-- Default for MonitoringConfig. -/
def MonitoringConfig.default : MonitoringConfig :=
  { enabled := true, log_requests := true, log_responses := false,
    log_security_events := true, metrics_enabled := true,
    trace_sampling_rate := 1 / 10 }

/-- ThreatDetectionConfig of config.rs. -/
structure ThreatDetectionConfig where
  enabled : Bool
  anomaly_detection : Bool
  bot_detection : Bool
  known_patterns : Bool
  block_suspicious : Bool
deriving DecidableEq

/-- Default for ThreatDetectionConfig: every flag on. -/
def ThreatDetectionConfig.default : ThreatDetectionConfig :=
  { enabled := true, anomaly_detection := true, bot_detection := true,
    known_patterns := true, block_suspicious := true }

/-- HttpsConfig of config.rs. -/
structure HttpsConfig where
  enabled : Bool
  require_https : Bool
  hsts_max_age : Nat
  hsts_include_subdomains : Bool
deriving DecidableEq

/-- Default for HttpsConfig. -/
def HttpsConfig.default : HttpsConfig :=
  { enabled := true, require_https := true, hsts_max_age := 31536000,
    hsts_include_subdomains := true }

/-- CorsConfig of config.rs. -/
structure CorsConfig where
  enabled : Bool
  allow_origins : List String
  allow_all_origins : Bool
  allow_methods : List String
  allow_headers : List String
  allow_credentials : Bool
  max_age : Nat
deriving DecidableEq

/-- Default for CorsConfig. -/
def CorsConfig.default : CorsConfig :=
  { enabled := true, allow_origins := ["https://localhost:3000"],
    allow_all_origins := false,
    allow_methods := ["GET", "POST", "PUT", "DELETE", "PATCH", "OPTIONS"],
    allow_headers := ["Content-Type", "Authorization", "X-API-Key"],
    allow_credentials := true, max_age := 86400 }

/-- CsrfConfig of config.rs. -/
structure CsrfConfig where
  enabled : Bool
  token_length : Nat
  header_name : String
  param_name : String
deriving DecidableEq

/-- Default for CsrfConfig. -/
def CsrfConfig.default : CsrfConfig :=
  { enabled := true, token_length := 32, header_name := "X-CSRF-Token",
    param_name := "_csrf" }

/-- ContentTypeConfig of config.rs. -/
structure ContentTypeConfig where
  enabled : Bool
  allowed_types : List String
  strict : Bool
deriving DecidableEq

/-- Default for ContentTypeConfig (the strict field is named strict_mode
in the source; renamed here to avoid clashing with the SecurityConfig
method of the same name). -/
def ContentTypeConfig.default : ContentTypeConfig :=
  { enabled := true,
    allowed_types := ["application/json", "application/x-www-form-urlencoded",
      "multipart/form-data", "text/plain", "text/xml", "application/xml"],
    strict := false }

/-- SecurityConfig of config.rs, the root configuration. -/
structure SecurityConfig where
  rate_limit : RateLimitConfig
  validation : ValidationConfig
  auth : AuthConfig
  monitoring : MonitoringConfig
  threat_detection : ThreatDetectionConfig
  https : HttpsConfig
  cors : CorsConfig
  csrf : CsrfConfig
  content_type : ContentTypeConfig
deriving DecidableEq

/-- Default for SecurityConfig: the defaults of every section. -/
def SecurityConfig.default : SecurityConfig :=
  { rate_limit := RateLimitConfig.default,
    validation := ValidationConfig.default,
    auth := AuthConfig.default,
    monitoring := MonitoringConfig.default,
    threat_detection := ThreatDetectionConfig.default,
    https := HttpsConfig.default,
    cors := CorsConfig.default,
    csrf := CsrfConfig.default,
    content_type := ContentTypeConfig.default }

/-- SecurityConfig::strict_mode of config.rs: sets the five validation
sub-flags, anomaly_detection and bot_detection to true and leaves every
other field as it was. -/
def SecurityConfig.strict_mode (c : SecurityConfig) : SecurityConfig :=
  { c with
    validation := { c.validation with
      sql_injection_check := true, xss_check := true,
      command_injection_check := true, path_traversal_check := true,
      sanitize_input := true },
    threat_detection := { c.threat_detection with
      anomaly_detection := true, bot_detection := true } }

/-! ### The shared core types

The module crate::core is not part of the packaged source tree; only its
users are.  The two types below are therefore modelled from the spec. -/

/-- Modelled from the spec: the ThreatScoringContext of the missing
crate::core module is a per-request record carrying a monotonically
non-decreasing unsigned threat score; only the score is relevant to the
claims, and add_threat_score adds the given weight to it. -/
structure SecurityContext where
  threat_score : Nat
deriving DecidableEq

/-- Modelled from the spec: add_threat_score of the missing crate::core
module adds a weight to the accumulated score. -/
def SecurityContext.add_threat_score (ctx : SecurityContext) (w : Nat) :
    SecurityContext :=
  { ctx with threat_score := ctx.threat_score + w }

/-- Modelled from the spec: the SecurityError taxonomy of the missing
crate::core module, with the variants and payload shapes used by
rate_limit.rs, validation.rs, auth.rs and error_handling.rs. -/
inductive SecurityError where
  | RateLimitExceeded (retry_after : Nat) : SecurityError
  | AuthenticationFailed (reason : String) : SecurityError
  | AuthorizationFailed (reason : String) : SecurityError
  | InvalidInput (reason : String) (field : Option String) : SecurityError
  | ThreatDetected (category : String) (severity : String) : SecurityError
  | ConfigError (reason : String) : SecurityError
  | InternalError (reason : String) : SecurityError
  | CorsViolation (reason : String) : SecurityError
  | CsrfViolation (reason : String) : SecurityError
  | HttpsRequired : SecurityError
  | TransportLayerViolation (reason : String) : SecurityError
  | IpBlocked (reason : String) : SecurityError
  | VpnDetected (reason : String) : SecurityError
  | ProxyDetected (reason : String) : SecurityError
  | RequestTimeout (reason : String) : SecurityError
  | ConnectionTimeout (reason : String) : SecurityError
  | ReplayDetected (reason : String) : SecurityError
deriving DecidableEq

/-- Decidable equality for Except, used to evaluate results on concrete
inputs. -/
instance {ε α : Type} [DecidableEq ε] [DecidableEq α] :
    DecidableEq (Except ε α) := fun x y =>
  match x, y with
  | .ok a, .ok b => decidable_of_iff (a = b) (by simp)
  | .error a, .error b => decidable_of_iff (a = b) (by simp)
  | .ok _, .error _ => isFalse (by simp)
  | .error _, .ok _ => isFalse (by simp)

/-! ### InputValidator::validate_string and InputValidator::sanitize -/

/-- InputValidator::validate_string of validation.rs: the four enabled
category checks run in the fixed order SQL, XSS, command injection,
path traversal; the first match adds its score weight to the context and
returns an InvalidInput error naming the field. -/
def validate_string (cfg : ValidationConfig) (input : List Char)
    (field_name : String) (context : SecurityContext) :
    Except SecurityError Unit × SecurityContext :=
  if cfg.sql_injection_check && contains_sql_injection input then
    (.error (.InvalidInput "Potential SQL injection detected" (some field_name)),
      context.add_threat_score 40)
  else if cfg.xss_check && contains_xss input then
    (.error (.InvalidInput "Potential XSS attack detected" (some field_name)),
      context.add_threat_score 35)
  else if cfg.command_injection_check && contains_command_injection input then
    (.error (.InvalidInput "Potential command injection detected" (some field_name)),
      context.add_threat_score 45)
  else if cfg.path_traversal_check && contains_path_traversal input then
    (.error (.InvalidInput "Potential path traversal detected" (some field_name)),
      context.add_threat_score 30)
  else (.ok (), context)

/-- Model of str::replace with a single-character pattern: every
occurrence of the character becomes the replacement word. -/
def replaceChar (c : Char) (r : List Char) : List Char → List Char
  | [] => []
  | x :: xs => (if x = c then r else [x]) ++ replaceChar c r xs

/-- InputValidator::sanitize of validation.rs: identity when
sanitize_input is off; otherwise strip null bytes, then escape the five
HTML-special characters in the source order ampersand, less-than,
greater-than, double quote, single quote. -/
def sanitize (cfg : ValidationConfig) (input : List Char) : List Char :=
  if !cfg.sanitize_input then input
  else
    replaceChar apostChar "&#x27;".toList
      (replaceChar quoteChar "&quot;".toList
        (replaceChar '>' "&gt;".toList
          (replaceChar '<' "&lt;".toList
            (replaceChar '&' "&amp;".toList
              (replaceChar nullChar [] input)))))

/-! ### ErrorHandler::should_expose_details of error_handling.rs -/

/-- ErrorHandler::should_expose_details: detailed reasons are exposed
exactly to authenticated callers whose threat score is below 50. -/
def should_expose_details (threat_score : Nat) (is_authenticated : Bool) : Bool :=
  is_authenticated && threat_score < 50

/-! ### The token-bucket rate limiter of rate_limit.rs

The f64 token arithmetic is modelled exactly over the rationals, and
Instant timestamps become rational time points passed by the caller.
The concurrent DashMap becomes an association list threaded through the
check call; the AtomicU64 global_counter is telemetry only and is not
modelled.  One divergence is noted on TokenBucket.new below. -/

/-- TokenBucket of rate_limit.rs. -/
structure TokenBucket where
  tokens : ℚ
  capacity : ℚ
  refill_rate : ℚ
  last_refill : ℚ
  window : ℚ
deriving DecidableEq

/-- TokenBucket::new: a fresh bucket holds capacity = burst tokens and
refills at requests / window tokens per second.  In Rust the division is
on f64, so a zero-length window gives an infinite rate; over the
rationals it gives rate 0.  Theorems about the rate therefore assume a
positive window or a non-negative rate. -/
def TokenBucket.new (requests burst : Nat) (window now : ℚ) : TokenBucket :=
  { tokens := (burst : ℚ), capacity := (burst : ℚ),
    refill_rate := (requests : ℚ) / window, last_refill := now, window := window }

/-- TokenBucket::refill: when wall-clock time advanced, add
elapsed * rate tokens capped at capacity and remember the new instant;
a non-positive elapsed time changes nothing. -/
def TokenBucket.refill (b : TokenBucket) (now : ℚ) : TokenBucket :=
  let elapsed := now - b.last_refill
  if elapsed > 0 then
    { b with
      tokens := min (b.tokens + elapsed * b.refill_rate) b.capacity
      last_refill := now }
  else b

/-- TokenBucket::consume: refill first, then take one token when at
least one is available. -/
def TokenBucket.consume (b : TokenBucket) (now : ℚ) : Bool × TokenBucket :=
  let b := b.refill now
  if b.tokens ≥ 1 then (true, { b with tokens := b.tokens - 1 })
  else (false, b)

/-- TokenBucket::time_until_refill: whole seconds until one token is
available, the ceiling of (1 - tokens) / rate, at least 1; zero when a
token is already available. -/
def TokenBucket.time_until_refill (b : TokenBucket) : Nat :=
  let tokens_needed := 1 - b.tokens
  if tokens_needed ≤ 0 then 0
  else max (Int.toNat ⌈tokens_needed / b.refill_rate⌉) 1

/-- Lookup in the association list standing for the DashMap. -/
def lookupBucket : List (String × TokenBucket) → String → Option TokenBucket
  | [], _ => none
  | (k, b) :: rest, key => if k = key then some b else lookupBucket rest key

/-- Insert-or-overwrite in the association list standing for the DashMap. -/
def updateBucket : List (String × TokenBucket) → String → TokenBucket →
    List (String × TokenBucket)
  | [], key, b => [(key, b)]
  | (k, b0) :: rest, key, b =>
      if k = key then (key, b) :: rest else (k, b0) :: updateBucket rest key b

/-- RateLimiter of rate_limit.rs. -/
structure RateLimiter where
  config : RateLimitConfig
  buckets : List (String × TokenBucket)
deriving DecidableEq

/-- RateLimiter::new starts with an empty bucket map. -/
def RateLimiter.new (config : RateLimitConfig) : RateLimiter :=
  { config := config, buckets := [] }

/-- RateLimiter::check: pass-through when disabled; otherwise fetch or
lazily create the bucket for the identifier, consume, and on failure
report time_until_refill of the (refilled) bucket.  The entry API of the
DashMap stores the bucket in the map in both outcomes. -/
def RateLimiter.check (rl : RateLimiter) (identifier : String) (now : ℚ) :
    Except SecurityError Unit × RateLimiter :=
  if !rl.config.enabled then (.ok (), rl)
  else
    let bucket := (lookupBucket rl.buckets identifier).getD
      (TokenBucket.new rl.config.requests_per_window rl.config.burst_size
        rl.config.window_duration now)
    let res := bucket.consume now
    let rl2 : RateLimiter := { rl with buckets := updateBucket rl.buckets identifier res.2 }
    if res.1 then (.ok (), rl2)
    else (.error (.RateLimitExceeded res.2.time_until_refill), rl2)

/-- A sequence of check calls, each with its identifier and time point,
keeping only the final limiter state. -/
def RateLimiter.runChecks (rl : RateLimiter) : List (String × ℚ) → RateLimiter
  | [] => rl
  | (k, now) :: rest => ((rl.check k now).2).runChecks rest

/-! ### The authentication manager of auth.rs

The JWT codec (jsonwebtoken) and SHA-256 are external collaborators, so
they appear as oracle functions carried by the manager. -/

/-- Claims of auth.rs, the JWT payload. -/
structure Claims where
  sub : String
  roles : List String
  email : Option String
  exp : Nat
  iat : Nat
deriving DecidableEq

/-- UserContext of auth.rs, the resolved identity. -/
structure UserContext where
  user_id : String
  roles : List String
  email : Option String
deriving DecidableEq

/-- The two request headers authenticate reads: authorization and
x-api-key; a missing or non-UTF-8 header is none (the source treats a
to_str failure like an absent header). -/
structure AuthRequest where
  authorization : Option String
  x_api_key : Option String
deriving DecidableEq

/-- AuthManager of auth.rs.  jwtDecode models the external
jsonwebtoken::decode with the given secret (Modelled from the spec: the
token codec is an out-of-scope collaborator), and hashKey models the
SHA-256 hex digest of hash_api_key (Modelled from the spec: hashing is a
black box); api_keys_hashed is the image of the configured keys under
hashKey, as built by AuthManager::new. -/
structure AuthManager where
  config : AuthConfig
  api_keys_hashed : List String
  jwtDecode : String → String → Except String Claims
  hashKey : String → String

/-- AuthManager::new hashes every configured API key. -/
def AuthManager.new (config : AuthConfig)
    (jwtDecode : String → String → Except String Claims)
    (hashKey : String → String) : AuthManager :=
  { config := config, api_keys_hashed := config.api_keys.map hashKey,
    jwtDecode := jwtDecode, hashKey := hashKey }

/-- AuthManager::authenticate_jwt: nothing to do without a configured
secret or a Bearer authorization header; otherwise decode the token
after the seven-character Bearer prefix, fail on a codec error or an
expired token, and return the identity from the claims. -/
def AuthManager.authenticate_jwt (m : AuthManager) (now : Nat)
    (request : AuthRequest) : Except SecurityError (Option UserContext) :=
  match m.config.jwt_secret with
  | none => .ok none
  | some jwt_secret =>
    match request.authorization with
    | none => .ok none
    | some value =>
      if value.startsWith "Bearer " then
        match m.jwtDecode jwt_secret (value.drop 7) with
        | .error e => .error (.AuthenticationFailed ("Invalid JWT: " ++ e))
        | .ok claims =>
          if claims.exp < now then .error (.AuthenticationFailed "Token expired")
          else .ok (some { user_id := claims.sub
                           roles := claims.roles
                           email := claims.email })
      else .ok none

/-- AuthManager::authenticate_api_key: nothing to do when no key is
configured or the header is absent; otherwise accept exactly a key whose
hash is stored, and fail on any other key. -/
def AuthManager.authenticate_api_key (m : AuthManager)
    (request : AuthRequest) : Except SecurityError (Option UserContext) :=
  if m.api_keys_hashed.isEmpty then .ok none
  else
    match request.x_api_key with
    | none => .ok none
    | some api_key =>
      let key_hash := m.hashKey api_key
      if m.api_keys_hashed.contains key_hash then
        .ok (some { user_id := "apikey_" ++ key_hash.take 8
                    roles := ["api_user"]
                    email := none })
      else .error (.AuthenticationFailed "Invalid API key")

/-- AuthManager::authenticate: pass-through when disabled; try JWT, then
API key, propagating their failures; with neither identity, fail exactly
when require_auth is set. -/
def AuthManager.authenticate (m : AuthManager) (now : Nat)
    (request : AuthRequest) : Except SecurityError (Option UserContext) :=
  if !m.config.enabled then .ok none
  else
    match m.authenticate_jwt now request with
    | .error e => .error e
    | .ok (some user) => .ok (some user)
    | .ok none =>
      match m.authenticate_api_key request with
      | .error e => .error e
      | .ok (some user) => .ok (some user)
      | .ok none =>
        if m.config.require_auth then
          .error (.AuthenticationFailed "No valid authentication credentials provided")
        else .ok none

/-! ### Notions used by the statements, and concrete fixtures -/

/-- The word m occurs contiguously inside s. -/
def containsSub (m s : List Char) : Prop := ∃ u v, s = u ++ m ++ v

/-- The quote OR quote 1 quote = quote 1 literal named by the spec (with
an upper-case OR), as a character list. -/
def sqlOrProbe : List Char :=
  [apostChar, ' ', 'O', 'R', ' ', apostChar, '1', apostChar, '=', apostChar, '1']

/-- The five characters sanitize escapes. -/
def isSpecialChar (c : Char) : Bool :=
  c = '&' || c = '<' || c = '>' || c = quoteChar || c = apostChar

/-- Fixture: the five-per-minute configuration of the spec scenario. -/
def fiveWindowConfig : RateLimitConfig :=
  { enabled := true, requests_per_window := 5, window_duration := 60,
    burst_size := 5, per_ip := true, per_user := false, adaptive := false }

/-- Fixture: a bucket holding half a token, refilling one token per
second. -/
def halfTokenBucket : TokenBucket :=
  { tokens := 1 / 2, capacity := 5, refill_rate := 1, last_refill := 0,
    window := 60 }

/-- Fixture: a limiter whose one bucket holds half a token. -/
def halfTokenLimiter : RateLimiter :=
  { config := fiveWindowConfig, buckets := [("ip-A", halfTokenBucket)] }

/-- Fixture: the five-per-minute configuration, disabled. -/
def disabledConfig : RateLimitConfig := { fiveWindowConfig with enabled := false }

/-- Fixture: the bucket left by one admitted request under
fiveWindowConfig at time 0. -/
def fourTokenBucket : TokenBucket :=
  { tokens := 4, capacity := 5, refill_rate := 1 / 12, last_refill := 0,
    window := 60 }

/-- Fixture: an enabled permissive manager with no configured secret and
no configured API key; the collaborator oracles are arbitrary concrete
functions. -/
def permissiveAuthManager : AuthManager :=
  { config := { AuthConfig.default with enabled := true },
    api_keys_hashed := [],
    jwtDecode := fun _ _ => .error "invalid signature",
    hashKey := fun s => s }

/-- Fixture: the permissive manager with one stored key hash. -/
def keyedAuthManager : AuthManager :=
  { permissiveAuthManager with api_keys_hashed := ["stored-key"] }

/-- Fixture: a SecurityConfig whose operator turned the two
threat-detection flags known_patterns and block_suspicious off. -/
def relaxedDetectionConfig : SecurityConfig :=
  { SecurityConfig.default with
    threat_detection := { ThreatDetectionConfig.default with
      known_patterns := false
      block_suspicious := false } }

/-- The bucket invariant of the spec: tokens within bounds, together
with the non-negative refill rate every constructed bucket has. -/
def BucketInv (b : TokenBucket) : Prop :=
  0 ≤ b.tokens ∧ b.tokens ≤ b.capacity ∧ 0 ≤ b.refill_rate

/-- Every bucket of the map satisfies the bucket invariant. -/
def MapInv (l : List (String × TokenBucket)) : Prop :=
  ∀ p ∈ l, BucketInv p.2

/-! ## Lemmas about the matcher -/

/-- A substring occurrence survives a character map. -/
theorem containsSub_map (f : Char → Char) {m s : List Char}
    (h : containsSub m s) : containsSub (m.map f) (s.map f) := by
  obtain ⟨u, v, rfl⟩ := h
  exact ⟨u.map f, v.map f, by simp⟩

/-- A prefix match survives extending the word on the right. -/
theorem matchesPref_append {r : Rx} {s : List Char} (t : List Char)
    (h : matchesPref r s = true) : matchesPref r (s ++ t) = true := by
  induction s generalizing r with
  | nil =>
    cases t with
    | nil => exact h
    | cons c cs =>
      simp only [matchesPref] at h
      simp only [List.nil_append, matchesPref, h, Bool.true_or]
  | cons c cs ih =>
    simp only [matchesPref, Bool.or_eq_true] at h
    rcases h with h | h
    · simp only [List.cons_append, matchesPref, h, Bool.true_or]
    · simp only [List.cons_append, matchesPref, Bool.or_eq_true]
      exact Or.inr (ih h)

/-- A full match of a word is a prefix match of any right extension. -/
theorem accepts_matchesPref {r : Rx} {m : List Char} (t : List Char)
    (h : accepts r m = true) : matchesPref r (m ++ t) = true := by
  induction m generalizing r with
  | nil =>
    simp only [accepts] at h
    cases t with
    | nil => exact h
    | cons c cs => simp only [List.nil_append, matchesPref, h, Bool.true_or]
  | cons c cs ih =>
    simp only [accepts] at h
    simp only [List.cons_append, matchesPref, Bool.or_eq_true]
    exact Or.inr (ih h)

/-- A nullable expression is found anywhere. -/
theorem isMatch_of_nullable {r : Rx} (s : List Char) (h : nullable r = true) :
    isMatch r s = true := by
  cases s with
  | nil => exact h
  | cons c cs => simp only [isMatch, matchesPref, h, Bool.true_or]

/-- An unanchored match survives extending the word on the left. -/
theorem isMatch_append_left {r : Rx} (u : List Char) {s : List Char}
    (h : isMatch r s = true) : isMatch r (u ++ s) = true := by
  induction u with
  | nil => exact h
  | cons c cs ih =>
    simp only [List.cons_append, isMatch, Bool.or_eq_true]
    exact Or.inr ih

/-- The regex crate's is_match finds any substring the expression fully
matches. -/
theorem isMatch_of_accepts {r : Rx} {m s : List Char}
    (hm : accepts r m = true) (hsub : containsSub m s) :
    isMatch r s = true := by
  obtain ⟨u, v, rfl⟩ := hsub
  rw [List.append_assoc]
  refine isMatch_append_left u ?_
  cases m with
  | nil => exact isMatch_of_nullable v hm
  | cons c cs =>
    have h1 : matchesPref r ((c :: cs) ++ v) = true := accepts_matchesPref v hm
    show (matchesPref r ((c :: cs) ++ v) || isMatch r (cs ++ v)) = true
    rw [h1]
    rfl

/-- One matching pattern makes the whole category any-match true. -/
theorem any_search_of_mem {p : Pat} {l : List Pat} {s : List Char}
    (hp : p ∈ l) (h : p.search s = true) :
    (l.any fun q => q.search s) = true :=
  List.any_eq_true.mpr ⟨p, hp, h⟩

/-- An occurrence of the quote OR 1 = 1 literal anywhere in the input
makes contains_sql_injection fire, through the third compiled pattern. -/
theorem contains_sql_injection_of_probe {input : List Char}
    (h : containsSub sqlOrProbe input) :
    contains_sql_injection input = true := by
  have hl : containsSub (sqlOrProbe.map Char.toLower) (toLowerStr input) :=
    containsSub_map Char.toLower h
  have hacc : accepts sqlOrDigitsRx (sqlOrProbe.map Char.toLower) = true := by decide
  have hm : isMatch sqlOrDigitsRx (toLowerStr input) = true :=
    isMatch_of_accepts hacc hl
  unfold contains_sql_injection
  exact any_search_of_mem (p := sqlOrDigits) (by simp [sql_patterns]) hm

/-- An occurrence of <script in the lower-cased input makes contains_xss
fire, through the first compiled pattern. -/
theorem contains_xss_of_script {input : List Char}
    (h : containsSub "<script".toList (toLowerStr input)) :
    contains_xss input = true := by
  have hacc : accepts xssScriptRx "<script".toList = true := by decide
  have hm : isMatch xssScriptRx (toLowerStr input) = true :=
    isMatch_of_accepts hacc h
  unfold contains_xss
  exact any_search_of_mem (p := .plain xssScriptRx) (by simp [xss_patterns]) hm

/-! ## Claim C5 -/

/-- C5: for every input containing the literal quote OR quote 1 quote =
quote 1, scanning with the SQL-injection category enabled returns an
InvalidInput error attributed to SQL injection and adds the SQL score
weight 40 to the caller-supplied context. -/
theorem scan_sql_or_literal (cfg : ValidationConfig) (input : List Char)
    (field_name : String) (context : SecurityContext)
    (hs : cfg.sql_injection_check = true)
    (hsub : containsSub sqlOrProbe input) :
    validate_string cfg input field_name context =
      (.error (.InvalidInput "Potential SQL injection detected" (some field_name)),
        context.add_threat_score 40) := by
  have h := contains_sql_injection_of_probe hsub
  simp [validate_string, hs, h]

/-- Witness for scan_sql_or_literal at a concrete query string. -/
theorem scan_sql_or_literal_witness :
    validate_string ValidationConfig.default ('x' :: sqlOrProbe) "query" ⟨5⟩ =
      (.error (.InvalidInput "Potential SQL injection detected" (some "query")),
        ⟨45⟩) :=
  scan_sql_or_literal ValidationConfig.default ('x' :: sqlOrProbe) "query" ⟨5⟩
    rfl ⟨['x'], [], rfl⟩

/-! ## Claim C4 -/

/-- C4 counterexample: the input dash dash <script> contains <script>
and the XSS check is enabled, yet the scan attributes the error to the
SQL-injection category, because the SQL patterns run first and the SQL
comment pattern matches the two dashes: the claim that the error is
attributed to XSS fails. -/
theorem scan_script_sql_first_counterexample :
    ValidationConfig.default.xss_check = true ∧
    containsSub "<script".toList (toLowerStr "--<script>".toList) ∧
    (validate_string ValidationConfig.default "--<script>".toList "uri" ⟨0⟩).1 =
      .error (.InvalidInput "Potential SQL injection detected" (some "uri")) ∧
    (validate_string ValidationConfig.default "--<script>".toList "uri" ⟨0⟩).1 ≠
      .error (.InvalidInput "Potential XSS attack detected" (some "uri")) := by
  exact ⟨rfl, ⟨"--".toList, ">".toList, by decide⟩, by decide, by decide⟩

/-- C4 amended: for every input whose lower-cased form contains <script,
with the XSS check enabled, the scan always returns an InvalidInput
error; and the result is the XSS-attributed error with the XSS score
weight 35 added exactly when no enabled SQL pattern matches the input
(the SQL category runs before XSS, not after it, and the first match
short-circuits the scan). -/
theorem scan_script_xss_amended (cfg : ValidationConfig) (input : List Char)
    (field_name : String) (context : SecurityContext)
    (hx : cfg.xss_check = true)
    (hsub : containsSub "<script".toList (toLowerStr input)) :
    (∃ e, (validate_string cfg input field_name context).1 = .error e) ∧
    (validate_string cfg input field_name context =
        (.error (.InvalidInput "Potential XSS attack detected" (some field_name)),
          context.add_threat_score 35) ↔
      (cfg.sql_injection_check = false ∨ contains_sql_injection input = false)) := by
  have hxss := contains_xss_of_script hsub
  constructor
  · by_cases hsql : (cfg.sql_injection_check && contains_sql_injection input) = true
    · exact ⟨.InvalidInput "Potential SQL injection detected" (some field_name),
        by simp [validate_string, hsql]⟩
    · have hsql' : (cfg.sql_injection_check && contains_sql_injection input) = false := by
        simpa using hsql
      exact ⟨.InvalidInput "Potential XSS attack detected" (some field_name),
        by simp [validate_string, hsql', hx, hxss]⟩
  · constructor
    · intro hres
      cases ha : cfg.sql_injection_check
      · exact Or.inl rfl
      · cases hb : contains_sql_injection input
        · exact Or.inr rfl
        · have hsql : (cfg.sql_injection_check && contains_sql_injection input) = true := by
            rw [ha, hb]
            rfl
          rw [show validate_string cfg input field_name context =
              (.error (.InvalidInput "Potential SQL injection detected"
                (some field_name)), context.add_threat_score 40) from by
            simp [validate_string, hsql]] at hres
          simp at hres
    · intro hno
      have hsql' : (cfg.sql_injection_check && contains_sql_injection input) = false := by
        rcases hno with h | h <;> simp [h]
      simp [validate_string, hsql', hx, hxss]

/-- Witness for scan_script_xss_amended at a concrete script input on
which no SQL pattern fires. -/
theorem scan_script_xss_amended_witness :
    validate_string ValidationConfig.default "<script>alert(1)".toList "uri" ⟨0⟩ =
      (.error (.InvalidInput "Potential XSS attack detected" (some "uri")), ⟨35⟩) :=
  (scan_script_xss_amended ValidationConfig.default "<script>alert(1)".toList
      "uri" ⟨0⟩ rfl ⟨[], ">alert(1)".toList, by decide⟩).2.mpr
    (Or.inr (by decide))

/-! ## Claim C3 -/

/-- Replacement leaves a word without the pattern character unchanged. -/
theorem replaceChar_eq_self {c : Char} (r : List Char) {s : List Char}
    (h : ∀ x ∈ s, x ≠ c) : replaceChar c r s = s := by
  induction s with
  | nil => rfl
  | cons a as ih =>
    have ha : a ≠ c := h a (List.mem_cons_self a as)
    simp only [replaceChar, if_neg ha, List.singleton_append, List.cons.injEq,
      true_and]
    exact ih (fun x hx => h x (List.mem_cons_of_mem a hx))

/-- Any character of a replacement result comes from the replacement
word or from the original word. -/
theorem mem_of_mem_replaceChar {c : Char} {r s : List Char} {x : Char}
    (hx : x ∈ replaceChar c r s) : x ∈ r ∨ x ∈ s := by
  induction s with
  | nil => cases hx
  | cons a as ih =>
    simp only [replaceChar] at hx
    rcases List.mem_append.mp hx with h | h
    · by_cases hac : a = c
      · rw [if_pos hac] at h
        exact Or.inl h
      · rw [if_neg hac] at h
        rcases List.mem_singleton.mp h with rfl
        exact Or.inr (List.mem_cons_self _ _)
    · rcases ih h with h | h
      · exact Or.inl h
      · exact Or.inr (List.mem_cons_of_mem a h)

/-- Stripping a character leaves no occurrence of it behind. -/
theorem not_mem_replaceChar_nil {c : Char} {s : List Char} :
    ∀ x ∈ replaceChar c [] s, x ≠ c := by
  induction s with
  | nil => intro x hx; cases hx
  | cons a as ih =>
    intro x hx
    simp only [replaceChar] at hx
    rcases List.mem_append.mp hx with h | h
    · by_cases hac : a = c
      · rw [if_pos hac] at h
        cases h
      · rw [if_neg hac] at h
        rcases List.mem_singleton.mp h with rfl
        exact hac
    · exact ih x h

/-- A character that is not special differs from each of the five
escaped characters. -/
theorem no_special_facts {y : Char} (h : isSpecialChar y = false) :
    y ≠ '&' ∧ y ≠ '<' ∧ y ≠ '>' ∧ y ≠ quoteChar ∧ y ≠ apostChar := by
  simp only [isSpecialChar, Bool.or_eq_false_iff, decide_eq_false_iff_not] at h
  exact ⟨h.1.1.1.1, h.1.1.1.2, h.1.1.2, h.1.2, h.2⟩

/-- On input free of the five escaped characters, sanitize only strips
null bytes. -/
theorem sanitize_of_no_special {cfg : ValidationConfig} {x : List Char}
    (hs : cfg.sanitize_input = true)
    (h : ∀ c ∈ x, isSpecialChar c = false) :
    sanitize cfg x = replaceChar nullChar [] x := by
  have hstrip : ∀ c ∈ replaceChar nullChar [] x, isSpecialChar c = false := by
    intro c hc
    rcases mem_of_mem_replaceChar hc with h0 | h0
    · cases h0
    · exact h c h0
  have h1 : replaceChar '&' "&amp;".toList (replaceChar nullChar [] x) =
      replaceChar nullChar [] x :=
    replaceChar_eq_self _ (fun y hy => (no_special_facts (hstrip y hy)).1)
  have h2 : replaceChar '<' "&lt;".toList (replaceChar nullChar [] x) =
      replaceChar nullChar [] x :=
    replaceChar_eq_self _ (fun y hy => (no_special_facts (hstrip y hy)).2.1)
  have h3 : replaceChar '>' "&gt;".toList (replaceChar nullChar [] x) =
      replaceChar nullChar [] x :=
    replaceChar_eq_self _ (fun y hy => (no_special_facts (hstrip y hy)).2.2.1)
  have h4 : replaceChar quoteChar "&quot;".toList (replaceChar nullChar [] x) =
      replaceChar nullChar [] x :=
    replaceChar_eq_self _ (fun y hy => (no_special_facts (hstrip y hy)).2.2.2.1)
  have h5 : replaceChar apostChar "&#x27;".toList (replaceChar nullChar [] x) =
      replaceChar nullChar [] x :=
    replaceChar_eq_self _ (fun y hy => (no_special_facts (hstrip y hy)).2.2.2.2)
  simp only [sanitize, hs, Bool.not_true, Bool.false_eq_true, if_false]
  rw [h1, h2, h3, h4, h5]

/-- C3 counterexample: sanitizing the single character < once yields the
four characters amp l t semicolon, and sanitizing that again re-escapes
its ampersand, so the double application differs from the single one:
sanitize is not idempotent. -/
theorem sanitize_not_idempotent_counterexample :
    sanitize ValidationConfig.default
        (sanitize ValidationConfig.default ['<']) ≠
      sanitize ValidationConfig.default ['<'] := by decide

/-- C3 amended: sanitize is idempotent when sanitization is disabled (it
is then the identity) or when the input contains none of the five
escaped characters; on other inputs the first pass introduces ampersands
that the second pass escapes again. -/
theorem sanitize_idempotent_amended (cfg : ValidationConfig) (x : List Char)
    (h : cfg.sanitize_input = false ∨ ∀ c ∈ x, isSpecialChar c = false) :
    sanitize cfg (sanitize cfg x) = sanitize cfg x := by
  rcases h with h | h
  · simp [sanitize, h]
  · by_cases hs : cfg.sanitize_input = true
    · rw [sanitize_of_no_special hs h]
      have h2 : ∀ c ∈ replaceChar nullChar [] x, isSpecialChar c = false := by
        intro c hc
        rcases mem_of_mem_replaceChar hc with h0 | h0
        · cases h0
        · exact h c h0
      rw [sanitize_of_no_special hs h2]
      exact replaceChar_eq_self _ not_mem_replaceChar_nil
    · have hs' : cfg.sanitize_input = false := by
        simpa using hs
      simp [sanitize, hs']

/-- Witness for sanitize_idempotent_amended on a null-containing word
with no special characters. -/
theorem sanitize_idempotent_amended_witness :
    sanitize ValidationConfig.default
        (sanitize ValidationConfig.default ['a', nullChar, 'b']) =
      sanitize ValidationConfig.default ['a', nullChar, 'b'] :=
  sanitize_idempotent_amended ValidationConfig.default ['a', nullChar, 'b']
    (Or.inr (by decide))

/-! ## Claim C10 -/

/-- C10: with sanitize_input disabled, sanitize returns the input
unchanged, null bytes and HTML-special characters included. -/
theorem sanitize_disabled_identity (cfg : ValidationConfig) (x : List Char)
    (h : cfg.sanitize_input = false) : sanitize cfg x = x := by
  simp [sanitize, h]

/-- Witness for sanitize_disabled_identity on a word holding a null byte
and HTML-special characters. -/
theorem sanitize_disabled_identity_witness :
    sanitize { ValidationConfig.default with sanitize_input := false }
        ['<', nullChar, '&', 'a'] = ['<', nullChar, '&', 'a'] :=
  sanitize_disabled_identity _ _ rfl

/-! ## Claim C9 -/

/-- C9: should_expose_details holds exactly for an authenticated caller
whose threat score is below 50. -/
theorem should_expose_details_spec (threat_score : Nat) (is_authenticated : Bool) :
    should_expose_details threat_score is_authenticated = true ↔
      (is_authenticated = true ∧ threat_score < 50) := by
  simp [should_expose_details]

/-! ## Claim C8 -/

/-- C8 counterexample: strict_mode leaves known_patterns and
block_suspicious untouched, so starting from a configuration with both
flags off they remain off after strict_mode, contradicting the claim
that every threat-detection sub-flag becomes true. -/
theorem strict_mode_counterexample :
    relaxedDetectionConfig.strict_mode.threat_detection.known_patterns = false ∧
    relaxedDetectionConfig.strict_mode.threat_detection.block_suspicious = false :=
  ⟨rfl, rfl⟩

/-- C8 amended: strict_mode forces the five validation sub-flags as well
as anomaly_detection and bot_detection on; the threat-detection flags
known_patterns and block_suspicious keep their previous values. -/
theorem strict_mode_amended (c : SecurityConfig) :
    c.strict_mode.validation.sql_injection_check = true ∧
    c.strict_mode.validation.xss_check = true ∧
    c.strict_mode.validation.command_injection_check = true ∧
    c.strict_mode.validation.path_traversal_check = true ∧
    c.strict_mode.validation.sanitize_input = true ∧
    c.strict_mode.threat_detection.anomaly_detection = true ∧
    c.strict_mode.threat_detection.bot_detection = true ∧
    c.strict_mode.threat_detection.known_patterns =
      c.threat_detection.known_patterns ∧
    c.strict_mode.threat_detection.block_suspicious =
      c.threat_detection.block_suspicious :=
  ⟨rfl, rfl, rfl, rfl, rfl, rfl, rfl, rfl, rfl⟩

/-! ## Lemmas about the rate limiter -/

/-- Lookup after an overwrite finds the new bucket. -/
theorem lookupBucket_updateBucket (l : List (String × TokenBucket)) (k : String)
    (b : TokenBucket) : lookupBucket (updateBucket l k b) k = some b := by
  induction l with
  | nil => simp [updateBucket, lookupBucket]
  | cons p rest ih =>
    obtain ⟨k0, b0⟩ := p
    by_cases hk : k0 = k
    · simp [updateBucket, hk, lookupBucket]
    · simp [updateBucket, hk, lookupBucket, ih]

/-- Every entry of an overwritten map is an old entry or the new pair. -/
theorem mem_updateBucket {l : List (String × TokenBucket)} {k : String}
    {b : TokenBucket} {p : String × TokenBucket}
    (hp : p ∈ updateBucket l k b) : p ∈ l ∨ p = (k, b) := by
  induction l with
  | nil =>
    simp only [updateBucket, List.mem_singleton] at hp
    exact Or.inr hp
  | cons q rest ih =>
    obtain ⟨k0, b0⟩ := q
    simp only [updateBucket] at hp
    by_cases hk : k0 = k
    · rw [if_pos hk] at hp
      rcases List.mem_cons.mp hp with h | h
      · exact Or.inr h
      · exact Or.inl (List.mem_cons_of_mem _ h)
    · rw [if_neg hk] at hp
      rcases List.mem_cons.mp hp with h | h
      · exact Or.inl (h ▸ List.mem_cons_self _ _)
      · rcases ih h with h2 | h2
        · exact Or.inl (List.mem_cons_of_mem _ h2)
        · exact Or.inr h2

/-- Lookup finds only entries of the map. -/
theorem lookupBucket_mem {l : List (String × TokenBucket)} {k : String}
    {b : TokenBucket} (h : lookupBucket l k = some b) : (k, b) ∈ l := by
  induction l with
  | nil => cases h
  | cons p rest ih =>
    obtain ⟨k0, b0⟩ := p
    simp only [lookupBucket] at h
    by_cases hk : k0 = k
    · subst hk
      rw [if_pos rfl] at h
      injection h with h2
      subst h2
      exact List.mem_cons_self _ _
    · rw [if_neg hk] at h
      exact List.mem_cons_of_mem _ (ih h)

/-- Refilling does not change the capacity, rate or window. -/
theorem refill_fields (b : TokenBucket) (now : ℚ) :
    (b.refill now).capacity = b.capacity ∧
    (b.refill now).refill_rate = b.refill_rate := by
  simp only [TokenBucket.refill]
  split <;> exact ⟨rfl, rfl⟩

/-- Refilling never lowers the token count of a well-formed bucket. -/
theorem refill_tokens_mono {b : TokenBucket} (now : ℚ)
    (hcap : b.tokens ≤ b.capacity) (hrate : 0 ≤ b.refill_rate) :
    b.tokens ≤ (b.refill now).tokens := by
  simp only [TokenBucket.refill]
  split
  · rename_i he
    exact le_min (le_add_of_nonneg_right (mul_nonneg (le_of_lt he) hrate)) hcap
  · exact le_refl _

/-- Refilling preserves the bucket invariant. -/
theorem refill_inv {b : TokenBucket} (now : ℚ) (h : BucketInv b) :
    BucketInv (b.refill now) := by
  obtain ⟨h0, h1, h2⟩ := h
  simp only [BucketInv, TokenBucket.refill]
  split
  · rename_i he
    refine ⟨le_min (add_nonneg h0 (mul_nonneg (le_of_lt he) h2)) (le_trans h0 h1),
      min_le_right _ _, h2⟩
  · exact ⟨h0, h1, h2⟩

/-- Consuming preserves the bucket invariant. -/
theorem consume_inv {b : TokenBucket} (now : ℚ) (h : BucketInv b) :
    BucketInv (b.consume now).2 := by
  have hr := refill_inv now h
  obtain ⟨h0, h1, h2⟩ := hr
  simp only [TokenBucket.consume]
  split
  · rename_i hge
    exact ⟨by dsimp only; linarith, by dsimp only; linarith, h2⟩
  · exact ⟨h0, h1, h2⟩

/-- A fresh bucket satisfies the invariant whenever the configured
window is non-negative, as a Rust Duration always is. -/
theorem new_inv (requests burst : Nat) {window : ℚ} (now : ℚ)
    (hw : 0 ≤ window) :
    BucketInv (TokenBucket.new requests burst window now) :=
  ⟨Nat.cast_nonneg burst, le_refl _,
    div_nonneg (Nat.cast_nonneg requests) hw⟩

/-- The check call keeps the configuration. -/
theorem check_config (rl : RateLimiter) (k : String) (now : ℚ) :
    ((rl.check k now).2).config = rl.config := by
  simp only [RateLimiter.check]
  split
  · rfl
  · split <;> rfl

/-- One check call preserves the map invariant. -/
theorem check_inv {rl : RateLimiter} (k : String) (now : ℚ)
    (hw : 0 ≤ rl.config.window_duration) (h : MapInv rl.buckets) :
    MapInv ((rl.check k now).2).buckets := by
  simp only [RateLimiter.check]
  split
  · exact h
  · have hbucket : BucketInv ((lookupBucket rl.buckets k).getD
        (TokenBucket.new rl.config.requests_per_window rl.config.burst_size
          rl.config.window_duration now)) := by
      cases hlook : lookupBucket rl.buckets k with
      | none => exact new_inv _ _ _ hw
      | some b => exact h _ (lookupBucket_mem hlook)
    have hres := consume_inv now hbucket
    split
    · intro p hp
      rcases mem_updateBucket hp with h2 | h2
      · exact h p h2
      · rw [h2]
        exact hres
    · intro p hp
      rcases mem_updateBucket hp with h2 | h2
      · exact h p h2
      · rw [h2]
        exact hres

/-- A run of checks preserves the map invariant. -/
theorem runChecks_inv (ops : List (String × ℚ)) {rl : RateLimiter}
    (hw : 0 ≤ rl.config.window_duration) (h : MapInv rl.buckets) :
    MapInv (rl.runChecks ops).buckets := by
  induction ops generalizing rl with
  | nil => exact h
  | cons op rest ih =>
    obtain ⟨k, now⟩ := op
    simp only [RateLimiter.runChecks]
    exact ih (by rw [check_config]; exact hw) (check_inv k now hw h)

/-! ## Claim C2 -/

/-- C2: after any sequence of check calls (at arbitrary time points,
hence with any interleaved refills) starting from a fresh limiter, every
bucket of the map holds between 0 and capacity tokens. -/
theorem token_bounds_after_checks (cfg : RateLimitConfig)
    (ops : List (String × ℚ)) (hw : 0 ≤ cfg.window_duration) :
    ∀ p ∈ ((RateLimiter.new cfg).runChecks ops).buckets,
      0 ≤ p.2.tokens ∧ p.2.tokens ≤ p.2.capacity := by
  intro p hp
  have hnil : MapInv (RateLimiter.new cfg).buckets := by
    intro q hq
    cases hq
  have h := runChecks_inv ops hw hnil p hp
  exact ⟨h.1, h.2.1⟩

/-- Witness for token_bounds_after_checks: the bucket left by one
admitted request under the five-per-minute configuration. -/
theorem token_bounds_after_checks_witness :
    0 ≤ fourTokenBucket.tokens ∧
    fourTokenBucket.tokens ≤ fourTokenBucket.capacity :=
  token_bounds_after_checks fiveWindowConfig [("ip-A", 0)]
    (by norm_num [fiveWindowConfig]) ("ip-A", fourTokenBucket)
    (by norm_num [RateLimiter.runChecks, RateLimiter.check, RateLimiter.new,
      lookupBucket, updateBucket, TokenBucket.consume, TokenBucket.refill,
      TokenBucket.new, fiveWindowConfig, fourTokenBucket])

/-! ## Claim C6 -/

/-- With a disabled configuration every run of checks is a no-op. -/
theorem runChecks_disabled {rl : RateLimiter} (h : rl.config.enabled = false)
    (ops : List (String × ℚ)) : rl.runChecks ops = rl := by
  induction ops generalizing rl with
  | nil => rfl
  | cons op rest ih =>
    obtain ⟨k, now⟩ := op
    have hc : rl.check k now = (.ok (), rl) := by
      simp only [RateLimiter.check, h, Bool.not_false, if_true]
    simp only [RateLimiter.runChecks, hc]
    exact ih h

/-- C6: with rate limiting disabled, check always succeeds and leaves
the limiter untouched, and a fresh limiter keeps an empty bucket map
through any sequence of checks. -/
theorem rate_limit_disabled_passthrough (cfg : RateLimitConfig)
    (h : cfg.enabled = false) (rl : RateLimiter) (hrl : rl.config = cfg)
    (k : String) (now : ℚ) (ops : List (String × ℚ)) :
    rl.check k now = (.ok (), rl) ∧
    ((RateLimiter.new cfg).runChecks ops).buckets = [] := by
  constructor
  · simp only [RateLimiter.check, hrl, h, Bool.not_false, if_true]
  · rw [runChecks_disabled h ops]
    rfl

/-- Witness for rate_limit_disabled_passthrough at the disabled
five-per-minute configuration. -/
theorem rate_limit_disabled_passthrough_witness :
    (RateLimiter.new disabledConfig).check "ip-A" 0 =
      (.ok (), RateLimiter.new disabledConfig) ∧
    ((RateLimiter.new disabledConfig).runChecks [("a", 0), ("b", 1)]).buckets = [] :=
  rate_limit_disabled_passthrough disabledConfig rfl
    (RateLimiter.new disabledConfig) rfl "ip-A" 0 [("a", 0), ("b", 1)]

/-! ## Claim C1 -/

/-- C1: whenever an enabled check on an existing well-formed bucket
returns RateLimitExceeded, the bucket kept for that key has at least as
many tokens as before (only the refill ran, nothing was consumed), fewer
than one token, the same refill rate, and the reported retry_after is
the ceiling of (1 - tokens) / refill_rate floored at one second. -/
theorem rate_limit_reject_no_consume (rl : RateLimiter) (key : String)
    (now : ℚ) (b : TokenBucket) (retry : Nat) (rl2 : RateLimiter)
    (hen : rl.config.enabled = true)
    (hb : lookupBucket rl.buckets key = some b)
    (hcap : b.tokens ≤ b.capacity)
    (hrate : 0 < b.refill_rate)
    (hres : rl.check key now = (.error (.RateLimitExceeded retry), rl2)) :
    ∃ b2, lookupBucket rl2.buckets key = some b2 ∧
      b.tokens ≤ b2.tokens ∧ b2.tokens < 1 ∧
      b2.refill_rate = b.refill_rate ∧
      retry = max (Int.toNat ⌈(1 - b2.tokens) / b2.refill_rate⌉) 1 := by
  simp only [RateLimiter.check, hen, Bool.not_true, Bool.false_eq_true,
    if_false, hb, Option.getD_some] at hres
  by_cases hge : (b.refill now).tokens ≥ 1
  · rw [show b.consume now = (true, { b.refill now with
        tokens := (b.refill now).tokens - 1 }) from by
      simp only [TokenBucket.consume, if_pos hge], if_pos rfl] at hres
    cases hres
  · rw [show b.consume now = (false, b.refill now) from by
      simp only [TokenBucket.consume, if_neg hge]] at hres
    simp only [Bool.false_eq_true, if_false, Prod.mk.injEq, Except.error.injEq,
      SecurityError.RateLimitExceeded.injEq] at hres
    obtain ⟨hretry, hrl2⟩ := hres
    refine ⟨b.refill now, ?_, ?_, ?_, ?_, ?_⟩
    · rw [← hrl2]
      exact lookupBucket_updateBucket rl.buckets key (b.refill now)
    · exact refill_tokens_mono now hcap (le_of_lt hrate)
    · exact lt_of_not_ge hge
    · exact (refill_fields b now).2
    · rw [← hretry]
      have hlt : (b.refill now).tokens < 1 := lt_of_not_ge hge
      simp only [TokenBucket.time_until_refill]
      rw [if_neg (by linarith)]

/-- Witness for rate_limit_reject_no_consume at a bucket holding half a
token with rate one token per second: retry_after is 1. -/
theorem rate_limit_reject_no_consume_witness :
    ∃ b2, lookupBucket halfTokenLimiter.buckets "ip-A" = some b2 ∧
      halfTokenBucket.tokens ≤ b2.tokens ∧ b2.tokens < 1 ∧
      b2.refill_rate = halfTokenBucket.refill_rate ∧
      1 = max (Int.toNat ⌈(1 - b2.tokens) / b2.refill_rate⌉) 1 :=
  rate_limit_reject_no_consume halfTokenLimiter "ip-A" 0 halfTokenBucket 1
    halfTokenLimiter rfl
    (by norm_num [halfTokenLimiter, lookupBucket])
    (by norm_num [halfTokenBucket])
    (by norm_num [halfTokenBucket])
    (by norm_num [RateLimiter.check, halfTokenLimiter, fiveWindowConfig,
      lookupBucket, updateBucket, TokenBucket.consume, TokenBucket.refill,
      TokenBucket.time_until_refill, halfTokenBucket, Int.ceil_le])

/-! ## Claim C7 -/

/-- With no authorization header, the JWT stage resolves nothing,
whatever the configured secret. -/
theorem authenticate_jwt_no_header {m : AuthManager} (now : Nat)
    {req : AuthRequest} (ha : req.authorization = none) :
    m.authenticate_jwt now req = .ok none := by
  simp only [AuthManager.authenticate_jwt, ha]
  cases m.config.jwt_secret <;> rfl

/-- With no x-api-key header, the API-key stage resolves nothing,
whatever the stored keys. -/
theorem authenticate_api_key_no_header {m : AuthManager} {req : AuthRequest}
    (hk : req.x_api_key = none) :
    m.authenticate_api_key req = .ok none := by
  simp only [AuthManager.authenticate_api_key, hk]
  split <;> rfl

/-- C7 counterexample: an enabled, permissive manager with no configured
API key silently ignores a request carrying an x-api-key whose hash is
stored nowhere: the claim that failing credentials always produce an
AuthenticationFailed error is false. -/
theorem auth_unconfigured_verifier_counterexample :
    permissiveAuthManager.config.enabled = true ∧
    permissiveAuthManager.config.require_auth = false ∧
    (permissiveAuthManager.hashKey "wrong-key" ∈
        permissiveAuthManager.api_keys_hashed → False) ∧
    permissiveAuthManager.authenticate 0
      { authorization := none, x_api_key := some "wrong-key" } = .ok none := by
  refine ⟨rfl, rfl, ?_, rfl⟩
  intro h
  exact absurd h (List.not_mem_nil _)

/-- C7 amended: with the stage enabled, a request with no credentials
fails exactly when require_auth is set; a Bearer token the configured
codec rejects fails regardless of require_auth, provided a jwt_secret is
configured; an x-api-key whose hash is not stored fails regardless of
require_auth, provided at least one API key is configured and the JWT
stage resolved no identity (in particular whenever the request has no
authorization header); an identity resolved by the JWT stage preempts
the API-key check entirely, whatever x-api-key the request carries.
Credentials of a kind whose verifier is unconfigured are ignored. -/
theorem auth_permissive_amended (m : AuthManager) (now : Nat)
    (req : AuthRequest) (he : m.config.enabled = true) :
    (req.authorization = none → req.x_api_key = none →
      (m.authenticate now req =
          .error (.AuthenticationFailed "No valid authentication credentials provided")
        ↔ m.config.require_auth = true)) ∧
    (∀ sec a e, m.config.jwt_secret = some sec → req.authorization = some a →
      a.startsWith "Bearer " = true → m.jwtDecode sec (a.drop 7) = .error e →
      m.authenticate now req =
        .error (.AuthenticationFailed ("Invalid JWT: " ++ e))) ∧
    (∀ k, m.api_keys_hashed ≠ [] →
      m.authenticate_jwt now req = .ok none →
      req.x_api_key = some k →
      m.api_keys_hashed.contains (m.hashKey k) = false →
      m.authenticate now req = .error (.AuthenticationFailed "Invalid API key")) ∧
    (∀ u, m.authenticate_jwt now req = .ok (some u) →
      m.authenticate now req = .ok (some u)) := by
  refine ⟨?_, ?_, ?_, ?_⟩
  · intro ha hk
    have hj := authenticate_jwt_no_header (m := m) now ha
    have hak := authenticate_api_key_no_header (m := m) hk
    simp only [AuthManager.authenticate, he, Bool.not_true, Bool.false_eq_true,
      if_false, hj, hak]
    by_cases hr : m.config.require_auth = true
    · simp [hr]
    · have hr' : m.config.require_auth = false := by
        simpa using hr
      simp [hr']
  · intro sec a e hsec hauth hbearer hdec
    have hj : m.authenticate_jwt now req =
        .error (.AuthenticationFailed ("Invalid JWT: " ++ e)) := by
      simp only [AuthManager.authenticate_jwt, hsec, hauth, hbearer, if_true, hdec]
    simp only [AuthManager.authenticate, he, Bool.not_true, Bool.false_eq_true,
      if_false, hj]
  · intro k hne hj hx hcont
    have hE : m.api_keys_hashed.isEmpty = false := by
      cases hE : m.api_keys_hashed.isEmpty
      · rfl
      · exact absurd (List.isEmpty_iff.mp hE) hne
    have hak : m.authenticate_api_key req =
        .error (.AuthenticationFailed "Invalid API key") := by
      simp only [AuthManager.authenticate_api_key, hE, Bool.false_eq_true,
        if_false, hx, hcont]
    simp only [AuthManager.authenticate, he, Bool.not_true, Bool.false_eq_true,
      if_false, hj, hak]
  · intro u hj
    simp only [AuthManager.authenticate, he, Bool.not_true, Bool.false_eq_true,
      if_false, hj]

/-- Witness for auth_permissive_amended: the permissive manager with one
stored key hash rejects a wrong key even though require_auth is off. -/
theorem auth_permissive_amended_witness :
    keyedAuthManager.authenticate 0
      { authorization := none, x_api_key := some "wrong-key" } =
      .error (.AuthenticationFailed "Invalid API key") :=
  (auth_permissive_amended keyedAuthManager 0
      { authorization := none, x_api_key := some "wrong-key" } rfl).2.2.1
    "wrong-key" (by decide) rfl rfl (by decide)

end Secuval
